import Mathlib

set_option linter.unusedVariables false

/-!
Verification of the per-channel scheduling core of the announcement bot
(src/main.py): the channel registry, the scheduler tick with its
anti-stacking policy, the generation gateway with retry/backoff, and the
command handlers that write registry entries.

Timestamps are modelled as rationals, intervals as integers, and the
network boundary (HTTP responses of the generation service, channel
resolution, dispatch outcome) as explicit parameters enumerating the
outcomes the code distinguishes.
-/

namespace StellatHelper

/-- One announcement state per channel; mirrors class BotState in src/main.py.
Both timestamps are initialised to the creation time. -/
structure BotState where
  scheduled_channel_id : ℤ
  last_channel_activity_time : ℚ
  last_bot_send_time : ℚ
  scheduled_message_content : String
  is_automatic : Bool
  ai_prompt : String
  interval_seconds : ℤ
  ignore_stack_logic : Bool
deriving DecidableEq

/-- BotState.__init__: fresh state with both timestamps set to now (= time.time()),
empty static content, zero interval, overrides off. -/
def BotState.init (channel_id : ℤ) (now : ℚ) : BotState :=
  { scheduled_channel_id := channel_id
    last_channel_activity_time := now
    last_bot_send_time := now
    scheduled_message_content := ""
    is_automatic := false
    ai_prompt := ""
    interval_seconds := 0
    ignore_stack_logic := false }

/-- CHANNEL_STATES: mapping from channel id to state, as an association list
(the python dict iterated over a snapshot of items). -/
abbrev Registry := List (ℤ × BotState)

/-- Dictionary lookup CHANNEL_STATES.get(c). -/
def regGet : Registry → ℤ → Option BotState
  | [], _ => none
  | (c, s) :: rest, d => if c = d then some s else regGet rest d

/-- Dictionary store CHANNEL_STATES[c] = s. -/
def regSet : Registry → ℤ → BotState → Registry
  | [], c, s => [(c, s)]
  | (c', s') :: rest, c, s =>
      if c' = c then (c, s) :: rest else (c', s') :: regSet rest c s

/-- Dictionary deletion del CHANNEL_STATES[c]. -/
def regRemove : Registry → ℤ → Registry
  | [], _ => []
  | (c', s') :: rest, c => if c' = c then rest else (c', s') :: regRemove rest c

/- ---------------------------------------------------------------------
Generation gateway: fetch_with_backoff (src/main.py lines 226-249).
--------------------------------------------------------------------- -/

/-- Outcome of one HTTP attempt against the generation service, as the code
distinguishes them: a response with a status code and (for 200) a parsed body,
an aiohttp ClientConnectorError, or any other exception. -/
inductive ApiResponse (β : Type) where
  | http (status : ℕ) (body : β)
  | connError
  | otherExc (msg : String)
deriving DecidableEq

/-- Return value of fetch_with_backoff: the (result, error) pair the python
function returns, together with the list of backoff sleeps it performed. -/
structure FetchOutcome (β : Type) where
  result : Option β
  error : Option String
  sleeps : List ℕ
deriving DecidableEq

/-- The for-attempt-in-range(max_retries) loop body of fetch_with_backoff.
`resp a` is the outcome of the HTTP post on attempt `a`; `rem` is the number
of attempts left; `sleeps` accumulates the waits performed so far (reversed). -/
def fetch_attempts {β : Type} (resp : ℕ → ApiResponse β) :
    ℕ → ℕ → List ℕ → FetchOutcome β
  | _, 0, sleeps =>
      { result := none
        error := some ("Error: Failed to connect to AI service after multiple retries.")
        sleeps := sleeps.reverse }
  | a, rem + 1, sleeps =>
      match resp a with
      | .http status body =>
          if status = 200 then
            { result := some body, error := none, sleeps := sleeps.reverse }
          else if status = 429 then
            fetch_attempts resp (a + 1) rem (2 ^ a :: sleeps)
          else
            { result := none
              error := some (("Error: AI service returned status ") ++ toString status)
              sleeps := sleeps.reverse }
      | .connError => fetch_attempts resp (a + 1) rem (2 ^ a :: sleeps)
      | .otherExc m =>
          { result := none
            error := some (("An unexpected error occurred: ") ++ m)
            sleeps := sleeps.reverse }

/-- fetch_with_backoff: max_retries = 3, attempts numbered from 0. -/
def fetch_with_backoff {β : Type} (resp : ℕ → ApiResponse β) : FetchOutcome β :=
  fetch_attempts resp 0 3 []

/- ---------------------------------------------------------------------
generate_announcement_content (lines 252-277).
--------------------------------------------------------------------- -/

/-- Shape of a 200 body as seen by generate_announcement_content: either the
nested text field is present, or absent (the .get default fires), or the
structure is wrong and indexing raises IndexError/KeyError/TypeError. -/
inductive AnnBody where
  | textField (t : String)
  | missingText
  | badShape
deriving DecidableEq

/-- generate_announcement_content: returns the generated text, or an error
string (always a plain String, exactly as the python function does). -/
def generate_announcement_content (hasKey : Bool) (resp : ℕ → ApiResponse AnnBody)
    (prompt : String) : String :=
  if hasKey = false then ("Error: Gemini API Key not configured.")
  else
    let f := fetch_with_backoff resp
    match f.error, f.result with
    | some e, _ => e
    | none, some (.textField t) => t
    | none, some .missingText => "AI failed to generate a response."
    | none, some .badShape => "Error: AI response was not in the expected format."
    | none, none => "Error: AI response was not in the expected format."

/- ---------------------------------------------------------------------
parse_automatic_prompt (lines 280-333).
--------------------------------------------------------------------- -/

/-- The JSON object decoded from the structured-output response: each field is
absent or present (dict.get yields None when absent). -/
structure ParsedAuto where
  announcement_prompt : Option String
  interval_seconds : Option ℤ
deriving DecidableEq

/-- Shape of a 200 body as seen by parse_automatic_prompt: either the text
field decodes to a JSON object (a missing text field defaults to the empty
object, so it is goodJson with both fields absent), or decoding/indexing
raises and the except branch fires. -/
inductive AutoBody where
  | goodJson (p : ParsedAuto)
  | badJson
deriving DecidableEq

/-- parse_automatic_prompt: returns the parsed data or an error string.
An interval below 10 (or absent, defaulting to 0) is clamped to 10. -/
def parse_automatic_prompt (hasKey : Bool) (resp : ℕ → ApiResponse AutoBody) :
    Except String ParsedAuto :=
  if hasKey = false then .error ("Error: Gemini API Key not configured.")
  else
    let f := fetch_with_backoff resp
    match f.error, f.result with
    | some e, _ => .error e
    | none, some (.goodJson p) =>
        if p.interval_seconds.getD 0 < 10 then
          .ok { p with interval_seconds := some 10 }
        else .ok p
    | none, some .badJson =>
        .error ("Error: AI parser response was not in the expected format.")
    | none, none =>
        .error ("Error: AI parser response was not in the expected format.")

/- ---------------------------------------------------------------------
Scheduler tick: send_scheduled_message (lines 493-535).
--------------------------------------------------------------------- -/

/-- Outcome of channel.send as the code distinguishes it: success,
discord.Forbidden, or any other exception. -/
inductive DispatchResult where
  | success
  | forbidden
  | otherError
deriving DecidableEq

/-- What the tick did for one registry entry. -/
inductive TickAction where
  | skippedInert
  | notDue
  | suppressedIdle
  | removedNoChannel
  | sent (msg : String)
  | removedForbidden
  | failedOther
deriving DecidableEq

/-- One iteration of the send_scheduled_message loop for a single entry.
`channelExists` models client.get_channel succeeding; `hasKey` and `resp`
feed the generation gateway for automatic entries; `dispatch` is the outcome
of channel.send. Returns the action taken and the entry afterwards
(none = deleted from CHANNEL_STATES). -/
def tickEntry (now : ℚ) (channelExists : Bool) (hasKey : Bool)
    (resp : ℕ → ApiResponse AnnBody) (dispatch : DispatchResult)
    (s : BotState) : TickAction × Option BotState :=
  if s.interval_seconds = 0 then (.skippedInert, some s)
  else if now - s.last_bot_send_time < (s.interval_seconds : ℚ) then (.notDue, some s)
  else if s.ignore_stack_logic = false ∧ s.last_channel_activity_time ≤ s.last_bot_send_time then
    (.suppressedIdle, some { s with last_bot_send_time := now })
  else if channelExists = false then (.removedNoChannel, none)
  else
    let msg := if s.is_automatic then generate_announcement_content hasKey resp s.ai_prompt
               else s.scheduled_message_content
    match dispatch with
    | .success =>
        (.sent (("**[Scheduled Announcement]** ") ++ msg),
         some { s with last_bot_send_time := now })
    | .forbidden => (.removedForbidden, none)
    | .otherError => (.failedOther, some s)

/-- Per-channel environment for one tick: whether client.get_channel resolves,
the dispatch outcome, and the generation-service responses. -/
structure ChannelEnv where
  channelExists : Bool
  dispatch : DispatchResult
  resp : ℕ → ApiResponse AnnBody

/-- One full scheduler tick over a snapshot of the registry items, in order;
returns the registry afterwards and the action taken per channel. -/
def tick (now : ℚ) (hasKey : Bool) (env : ℤ → ChannelEnv) :
    Registry → Registry × List (ℤ × TickAction)
  | [] => ([], [])
  | (c, s) :: rest =>
      let r := tickEntry now (env c).channelExists hasKey (env c).resp (env c).dispatch s
      let t := tick now hasKey env rest
      ((match r.2 with
        | some s' => (c, s') :: t.1
        | none => t.1), (c, r.1) :: t.2)

/- ---------------------------------------------------------------------
Command surface.
--------------------------------------------------------------------- -/

/-- Reply of a command handler: a rejection (ephemeral error message, registry
untouched at that point) or an acceptance. -/
inductive CmdReply where
  | rejected (msg : String)
  | accepted
deriving DecidableEq

/-- Python int() on a rational: truncation toward zero (num/den in
T-division). Used for int(interval_hours * 3600). -/
def pyInt (q : ℚ) : ℤ := q.num / (q.den : ℤ)

/-- Python truthiness test `not x` for an optional string: None and the empty
string are falsy. -/
def pyFalsy : Option String → Bool
  | none => true
  | some s => s = ""

/-- The /manual command (manual_schedule, lines 762-786): schedule a fixed message. -/
def manual_schedule (c : ℤ) (message : String) (interval_hours : ℚ) (now : ℚ)
    (reg : Registry) : Registry × CmdReply :=
  if interval_hours ≤ 0 then (reg, .rejected ("The interval must be > 0."))
  else
    let interval_seconds := pyInt (interval_hours * 3600)
    if interval_seconds < 10 then
      (reg, .rejected ("The interval is too short (minimum 10 seconds)."))
    else
      let s0 := (regGet reg c).getD (BotState.init c now)
      let s := { s0 with
        interval_seconds := interval_seconds
        scheduled_message_content := message
        is_automatic := false
        ignore_stack_logic := false
        last_bot_send_time := now
        last_channel_activity_time := now }
      (regSet reg c s, .accepted)

/-- The /automatic command (automatic_schedule, lines 788-830): schedule an AI message
from a freeform prompt, via the structured-parse path. When the parse
succeeds the interval field is always present (the clamp in
parse_automatic_prompt sets it), so the getD 0 default is never the value
actually stored. -/
def automatic_schedule (hasKey : Bool) (resp : ℕ → ApiResponse AutoBody)
    (c : ℤ) (now : ℚ) (reg : Registry) : Registry × CmdReply :=
  if hasKey = false then (reg, .rejected ("GEMINI_API_KEY is missing."))
  else
    match parse_automatic_prompt hasKey resp with
    | .error e => (reg, .rejected (("Error parsing prompt: ") ++ e))
    | .ok p =>
        let interval_seconds := p.interval_seconds.getD 0
        if pyFalsy p.announcement_prompt || interval_seconds < 10 then
          (reg, .rejected ("Could not determine a clear message or the interval was too small (minimum 10 seconds)."))
        else
          let s0 := (regGet reg c).getD (BotState.init c now)
          let s := { s0 with
            interval_seconds := interval_seconds
            ai_prompt := p.announcement_prompt.getD ("")
            is_automatic := true
            ignore_stack_logic := false
            last_bot_send_time := now
            last_channel_activity_time := now }
          (regSet reg c s, .accepted)

/-- The /ignore_stack_logic command (lines 833-855): admin override, "Hi" every 10s,
anti-stacking bypassed, last send time rewound 15s into the past. -/
def ignore_stack_logic (password : String) (c : ℤ) (now : ℚ)
    (reg : Registry) : Registry × CmdReply :=
  if password ≠ "12344321" then (reg, .rejected ("Access Denied: Incorrect password."))
  else
    let s0 := (regGet reg c).getD (BotState.init c now)
    let s := { s0 with
      interval_seconds := 10
      scheduled_message_content := "Hi"
      is_automatic := false
      ignore_stack_logic := true
      last_bot_send_time := now - 15
      last_channel_activity_time := now }
    (regSet reg c s, .accepted)

/-- The /stop channel command (lines 916-922). -/
def stop_channel (c : ℤ) (reg : Registry) : Registry × CmdReply :=
  match regGet reg c with
  | some _ => (regRemove reg c, .accepted)
  | none => (reg, .rejected ("No schedule running for this channel."))

/-- The /stop all command (lines 924-927). -/
def stop_all (reg : Registry) : Registry := []

/-- on_message activity update (lines 696-697): refresh
last_channel_activity_time only when an entry exists. -/
def record_activity (c : ℤ) (now : ℚ) (reg : Registry) : Registry :=
  match regGet reg c with
  | none => reg
  | some s => regSet reg c { s with last_channel_activity_time := now }

/- ---------------------------------------------------------------------
Status reporting (lines 726-733 and 930-960).
--------------------------------------------------------------------- -/

/-- get_display_interval: seconds to a readable H/M/S string. -/
def get_display_interval (interval_seconds : ℤ) : String :=
  if 3600 ≤ interval_seconds ∧ interval_seconds % 3600 = 0 then
    toString (interval_seconds / 3600) ++ " hours"
  else if 60 ≤ interval_seconds ∧ interval_seconds % 60 = 0 then
    toString (interval_seconds / 60) ++ " minutes"
  else
    toString interval_seconds ++ " seconds"

/-- The content of the /status reply: either the Idle message (no entry for
the channel) or the Running report with its computed fields. -/
inductive StatusReply where
  | idle
  | running (mode : String) (displayInterval : String) (is_waiting : String)
      (time_until_next : ℚ) (ignoreFlag : Bool)
deriving DecidableEq

/-- The /status command (get_status): read-only report for one channel. -/
def get_status (now : ℚ) (reg : Registry) (c : ℤ) : StatusReply :=
  match regGet reg c with
  | none => .idle
  | some s =>
      let mode := if s.is_automatic then ("Automatic (AI)") else ("Manual (Fixed)")
      let time_since_send := now - s.last_bot_send_time
      let is_waiting :=
        if s.ignore_stack_logic then ("No (Ignored)")
        else if s.last_channel_activity_time ≤ s.last_bot_send_time then
          "Yes (Awaiting chat activity)"
        else ("No")
      let time_until_next := max 0 ((s.interval_seconds : ℚ) - time_since_send)
      .running mode (get_display_interval s.interval_seconds) is_waiting
        time_until_next s.ignore_stack_logic

/-- The mode field of a status reply, when it is a Running report. -/
def statusMode : StatusReply → Option String
  | .idle => none
  | .running mode _ _ _ _ => some mode

/-- The interval display of a status reply, when it is a Running report. -/
def statusIntervalDisplay : StatusReply → Option String
  | .idle => none
  | .running _ d _ _ _ => some d

/- ---------------------------------------------------------------------
/test (test_schedule, lines 963-990).
--------------------------------------------------------------------- -/

/-- Reply of /test. -/
inductive TestReply where
  | noSchedule
  | sent (msg : String)
  | forbidden
  | otherError
deriving DecidableEq

/-- The /test command: dispatch the configured content immediately; the state is not
written at all (in particular last_bot_send_time is untouched). -/
def test_schedule (hasKey : Bool) (resp : ℕ → ApiResponse AnnBody)
    (dispatch : DispatchResult) (c : ℤ) (reg : Registry) : Registry × TestReply :=
  match regGet reg c with
  | none => (reg, .noSchedule)
  | some s =>
      let msg := if s.is_automatic then generate_announcement_content hasKey resp s.ai_prompt
                 else s.scheduled_message_content
      match dispatch with
      | .success => (reg, .sent (("**[Test Announcement]** ") ++ msg))
      | .forbidden => (reg, .forbidden)
      | .otherError => (reg, .otherError)

/-- The interval invariant of the data model: an entry is inert (interval 0)
or has an interval of at least 10 seconds. -/
def intervalOK (s : BotState) : Prop :=
  s.interval_seconds = 0 ∨ 10 ≤ s.interval_seconds

instance (s : BotState) : Decidable (intervalOK s) := by
  unfold intervalOK; infer_instance

/-- Every entry of the registry satisfies the interval invariant. -/
def regOK (reg : Registry) : Prop := ∀ p ∈ reg, intervalOK p.2

instance (reg : Registry) : Decidable (regOK reg) := by
  unfold regOK; exact List.decidableBAll _ reg

end StellatHelper


/- ---------------------------------------------------------------------
Helper lemmas: gateway.
--------------------------------------------------------------------- -/

namespace StellatHelper

/-- A 429 response or a connection error on attempt `a` consumes one unit of
the shared attempt budget and records the backoff sleep 2^a. -/
lemma fetch_attempts_retry {β : Type} (resp : ℕ → ApiResponse β) (a rem : ℕ)
    (sleeps : List ℕ)
    (h : resp a = ApiResponse.connError ∨ ∃ b, resp a = ApiResponse.http 429 b) :
    fetch_attempts resp a (rem + 1) sleeps
      = fetch_attempts resp (a + 1) rem (2 ^ a :: sleeps) := by
  rcases h with h | ⟨b, h⟩ <;> simp [fetch_attempts, h]

/-- Exhausting the budget with only 429s and connection errors yields the
terminal retries-exhausted error, after sleeping 1s, 2s, 4s. -/
lemma fetch_with_backoff_exhausted {β : Type} (resp : ℕ → ApiResponse β)
    (h : ∀ a, a < 3 → resp a = ApiResponse.connError ∨ ∃ b, resp a = ApiResponse.http 429 b) :
    fetch_with_backoff resp
      = { result := none
          error := some ("Error: Failed to connect to AI service after multiple retries.")
          sleeps := [1, 2, 4] } := by
  unfold fetch_with_backoff
  rw [fetch_attempts_retry resp 0 2 [] (h 0 (by norm_num)),
      fetch_attempts_retry resp 1 1 _ (h 1 (by norm_num)),
      fetch_attempts_retry resp 2 0 _ (h 2 (by norm_num))]
  simp [fetch_attempts]

/-- A non-200, non-429 status on the first attempt returns the upstream-status
error immediately: no retry, no sleep. -/
lemma fetch_with_backoff_status {β : Type} (resp : ℕ → ApiResponse β)
    (code : ℕ) (b : β) (h200 : code ≠ 200) (h429 : code ≠ 429)
    (h : resp 0 = ApiResponse.http code b) :
    fetch_with_backoff resp
      = { result := none
          error := some (("Error: AI service returned status ") ++ toString code)
          sleeps := [] } := by
  unfold fetch_with_backoff
  simp [fetch_attempts, h, h200, h429]

/-- A 200 response on the first attempt returns its body with no error. -/
lemma fetch_with_backoff_ok {β : Type} (resp : ℕ → ApiResponse β) (b : β)
    (h : resp 0 = ApiResponse.http 200 b) :
    fetch_with_backoff resp = { result := some b, error := none, sleeps := [] } := by
  unfold fetch_with_backoff
  simp [fetch_attempts, h]

/-- When the key is configured and the fetch reports an error string, the
generated announcement is exactly that error string. -/
lemma generate_of_fetch_error (resp : ℕ → ApiResponse AnnBody) (prompt e : String)
    (he : (fetch_with_backoff resp).error = some e) :
    generate_announcement_content true resp prompt = e := by
  unfold generate_announcement_content
  cases hres : (fetch_with_backoff resp).result <;> simp [he, hres]

/-- C2: on three consecutive rate-limit (or connection-failure) attempts the
gateway sleeps 1s, 2s, 4s and returns the terminal retries-exhausted error;
on a first-attempt status that is neither 200 nor 429 (e.g. 404) it returns
the upstream-status error at once, with no retry and no sleep. -/
theorem gateway_backoff_policy {β : Type} (resp : ℕ → ApiResponse β) :
    ((∀ a, a < 3 → resp a = ApiResponse.connError ∨ ∃ b, resp a = ApiResponse.http 429 b) →
      fetch_with_backoff resp
        = { result := none
            error := some ("Error: Failed to connect to AI service after multiple retries.")
            sleeps := [1, 2, 4] })
    ∧ (∀ code b, code ≠ 200 → code ≠ 429 → resp 0 = ApiResponse.http code b →
      fetch_with_backoff resp
        = { result := none
            error := some (("Error: AI service returned status ") ++ toString code)
            sleeps := [] }) := by
  constructor
  · exact fetch_with_backoff_exhausted resp
  · exact fun code b h200 h429 h => fetch_with_backoff_status resp code b h200 h429 h

/-- Concrete instantiation of the gateway policy: all-429 responses exhaust
the budget with sleeps 1, 2, 4; a single 404 fails immediately. -/
theorem gateway_backoff_policy_witness :
    (∀ a : ℕ, a < 3 →
        (fun _ : ℕ => ApiResponse.http 429 AnnBody.missingText) a = ApiResponse.connError
          ∨ ∃ b, (fun _ : ℕ => ApiResponse.http 429 AnnBody.missingText) a = ApiResponse.http 429 b)
    ∧ fetch_with_backoff (fun _ : ℕ => ApiResponse.http 429 AnnBody.missingText)
        = { result := none
            error := some ("Error: Failed to connect to AI service after multiple retries.")
            sleeps := [1, 2, 4] }
    ∧ fetch_with_backoff (fun _ : ℕ => ApiResponse.http 404 AnnBody.missingText)
        = { result := none
            error := some (("Error: AI service returned status ") ++ toString 404)
            sleeps := [] } := by
  refine ⟨fun a _ => Or.inr ⟨AnnBody.missingText, rfl⟩, ?_, ?_⟩
  · exact (gateway_backoff_policy (fun _ => ApiResponse.http 429 AnnBody.missingText)).1
      (fun a _ => Or.inr ⟨AnnBody.missingText, rfl⟩)
  · exact (gateway_backoff_policy (fun _ => ApiResponse.http 404 AnnBody.missingText)).2
      404 AnnBody.missingText (by decide) (by decide) rfl

end StellatHelper

/- ---------------------------------------------------------------------
Helper lemmas: one entry of the scheduler tick.
--------------------------------------------------------------------- -/

namespace StellatHelper

/-- A due, idle, non-override entry is suppressed and its send time advanced. -/
lemma tickEntry_suppressed (now : ℚ) (ce hk : Bool) (resp : ℕ → ApiResponse AnnBody)
    (d : DispatchResult) (s : BotState)
    (hi : s.interval_seconds ≠ 0)
    (hdue : ¬ (now - s.last_bot_send_time < (s.interval_seconds : ℚ)))
    (hig : s.ignore_stack_logic = false)
    (hidle : s.last_channel_activity_time ≤ s.last_bot_send_time) :
    tickEntry now ce hk resp d s
      = (.suppressedIdle, some { s with last_bot_send_time := now }) := by
  unfold tickEntry
  rw [if_neg hi, if_neg hdue, if_pos ⟨hig, hidle⟩]

/-- A due entry that passes the anti-stacking check in an unresolvable channel
is deleted. -/
lemma tickEntry_noChannel (now : ℚ) (hk : Bool) (resp : ℕ → ApiResponse AnnBody)
    (d : DispatchResult) (s : BotState)
    (hi : s.interval_seconds ≠ 0)
    (hdue : ¬ (now - s.last_bot_send_time < (s.interval_seconds : ℚ)))
    (hpass : ¬ (s.ignore_stack_logic = false ∧ s.last_channel_activity_time ≤ s.last_bot_send_time)) :
    tickEntry now false hk resp d s = (.removedNoChannel, none) := by
  unfold tickEntry
  rw [if_neg hi, if_neg hdue, if_neg hpass, if_pos rfl]

/-- A due entry that passes the anti-stacking check and sends successfully
dispatches the resolved content and advances the send time. -/
lemma tickEntry_sent (now : ℚ) (hk : Bool) (resp : ℕ → ApiResponse AnnBody)
    (s : BotState)
    (hi : s.interval_seconds ≠ 0)
    (hdue : ¬ (now - s.last_bot_send_time < (s.interval_seconds : ℚ)))
    (hpass : ¬ (s.ignore_stack_logic = false ∧ s.last_channel_activity_time ≤ s.last_bot_send_time)) :
    tickEntry now true hk resp .success s
      = (.sent (("**[Scheduled Announcement]** ") ++
          (if s.is_automatic then generate_announcement_content hk resp s.ai_prompt
           else s.scheduled_message_content)),
         some { s with last_bot_send_time := now }) := by
  unfold tickEntry
  rw [if_neg hi, if_neg hdue, if_neg hpass, if_neg (by simp)]

/-- A due entry whose dispatch raises discord.Forbidden is deleted. -/
lemma tickEntry_forbidden (now : ℚ) (hk : Bool) (resp : ℕ → ApiResponse AnnBody)
    (s : BotState)
    (hi : s.interval_seconds ≠ 0)
    (hdue : ¬ (now - s.last_bot_send_time < (s.interval_seconds : ℚ)))
    (hpass : ¬ (s.ignore_stack_logic = false ∧ s.last_channel_activity_time ≤ s.last_bot_send_time)) :
    tickEntry now true hk resp .forbidden s = (.removedForbidden, none) := by
  unfold tickEntry
  rw [if_neg hi, if_neg hdue, if_neg hpass, if_neg (by simp)]

/-- A due entry whose dispatch fails with any other exception is left as is. -/
lemma tickEntry_otherError (now : ℚ) (hk : Bool) (resp : ℕ → ApiResponse AnnBody)
    (s : BotState)
    (hi : s.interval_seconds ≠ 0)
    (hdue : ¬ (now - s.last_bot_send_time < (s.interval_seconds : ℚ)))
    (hpass : ¬ (s.ignore_stack_logic = false ∧ s.last_channel_activity_time ≤ s.last_bot_send_time)) :
    tickEntry now true hk resp .otherError s = (.failedOther, some s) := by
  unfold tickEntry
  rw [if_neg hi, if_neg hdue, if_neg hpass, if_neg (by simp)]

end StellatHelper

/- ---------------------------------------------------------------------
Claims about the scheduler tick on a single entry.
--------------------------------------------------------------------- -/

namespace StellatHelper

/-- C1: for a due entry (interval positive, now - last send >= interval) with
the override off and no channel activity since the last bot send, the tick
suppresses the dispatch AND advances last_bot_send_time to now; a second
consecutive due tick on the still-idle channel does exactly the same again:
zero dispatches and one timestamp advance per tick. -/
theorem scheduler_idle_suppression_advances_timer
    (s : BotState) (now1 now2 : ℚ) (ce1 ce2 hk1 hk2 : Bool)
    (r1 r2 : ℕ → ApiResponse AnnBody) (d1 d2 : DispatchResult)
    (hpos : 0 < s.interval_seconds)
    (hdue1 : (s.interval_seconds : ℚ) ≤ now1 - s.last_bot_send_time)
    (hig : s.ignore_stack_logic = false)
    (hidle : s.last_channel_activity_time ≤ s.last_bot_send_time)
    (hdue2 : (s.interval_seconds : ℚ) ≤ now2 - now1) :
    tickEntry now1 ce1 hk1 r1 d1 s
      = (.suppressedIdle, some { s with last_bot_send_time := now1 })
    ∧ tickEntry now2 ce2 hk2 r2 d2 { s with last_bot_send_time := now1 }
      = (.suppressedIdle, some { s with last_bot_send_time := now2 }) := by
  have hcast : (0 : ℚ) < (s.interval_seconds : ℚ) := by exact_mod_cast hpos
  have hi : s.interval_seconds ≠ 0 := by omega
  have hsend_lt : s.last_bot_send_time < now1 := by linarith
  constructor
  · exact tickEntry_suppressed now1 ce1 hk1 r1 d1 s hi (not_lt.mpr hdue1) hig hidle
  · exact tickEntry_suppressed now2 ce2 hk2 r2 d2 _ hi (not_lt.mpr hdue2) hig
      (le_of_lt (lt_of_le_of_lt hidle hsend_lt))

/-- Concrete run of the idle-suppression claim: interval 10, both timestamps
at 0, ticks at times 100 and 200; both ticks suppress and each advances the
timestamp once. -/
theorem scheduler_idle_suppression_advances_timer_witness :
    (0 : ℤ) < 10
    ∧ (((10 : ℤ) : ℚ) ≤ 100 - 0)
    ∧ ((0 : ℚ) ≤ 0)
    ∧ (((10 : ℤ) : ℚ) ≤ 200 - 100)
    ∧ (tickEntry 100 true true (fun _ => ApiResponse.connError) .success
          { BotState.init 1 0 with interval_seconds := 10 }
        = (.suppressedIdle,
           some { BotState.init 1 0 with interval_seconds := 10, last_bot_send_time := 100 })
      ∧ tickEntry 200 true true (fun _ => ApiResponse.connError) .success
          { BotState.init 1 0 with interval_seconds := 10, last_bot_send_time := 100 }
        = (.suppressedIdle,
           some { BotState.init 1 0 with interval_seconds := 10, last_bot_send_time := 200 })) :=
  ⟨by decide, by norm_num, le_refl 0, by norm_num,
   scheduler_idle_suppression_advances_timer
     { BotState.init 1 0 with interval_seconds := 10 } 100 200 true true true true
     (fun _ => ApiResponse.connError) (fun _ => ApiResponse.connError) .success .success
     (by decide) (by norm_num [BotState.init]) rfl (le_refl 0) (by norm_num)⟩

/-- C4: with ignore_stack_logic = true, a due entry is never suppressed by the
anti-stacking branch, whatever the activity and send timestamps are, and when
the channel resolves and the send succeeds it dispatches. -/
theorem ignore_idle_always_dispatches
    (s : BotState) (now : ℚ)
    (hig : s.ignore_stack_logic = true)
    (hpos : 0 < s.interval_seconds)
    (hdue : (s.interval_seconds : ℚ) ≤ now - s.last_bot_send_time) :
    (∀ (ce hk : Bool) (resp : ℕ → ApiResponse AnnBody) (d : DispatchResult),
        (tickEntry now ce hk resp d s).1 ≠ .suppressedIdle)
    ∧ (∀ (hk : Bool) (resp : ℕ → ApiResponse AnnBody),
        tickEntry now true hk resp .success s
          = (.sent (("**[Scheduled Announcement]** ") ++
              (if s.is_automatic then generate_announcement_content hk resp s.ai_prompt
               else s.scheduled_message_content)),
             some { s with last_bot_send_time := now })) := by
  have hi : s.interval_seconds ≠ 0 := by omega
  have hpass : ¬ (s.ignore_stack_logic = false
      ∧ s.last_channel_activity_time ≤ s.last_bot_send_time) := by
    simp [hig]
  constructor
  · intro ce hk resp d
    unfold tickEntry
    rw [if_neg hi, if_neg (not_lt.mpr hdue), if_neg hpass]
    cases ce <;> cases d <;> simp
  · intro hk resp
    exact tickEntry_sent now hk resp s hi (not_lt.mpr hdue) hpass

/-- Override-mode entry used in concrete runs: "Hi" every 10s, idle channel
(both timestamps 0). -/
def wOverrideState : BotState :=
  { BotState.init 1 0 with interval_seconds := 10, ignore_stack_logic := true, scheduled_message_content := "Hi" }

/-- Concrete run of the override claim: due override entry in an idle channel
(activity at 0, last send at 0, tick at 100) still dispatches its content. -/
theorem ignore_idle_always_dispatches_witness :
    wOverrideState.ignore_stack_logic = true
    ∧ (0 : ℤ) < 10
    ∧ (((10 : ℤ) : ℚ) ≤ 100 - 0)
    ∧ ((∀ (ce hk : Bool) (resp : ℕ → ApiResponse AnnBody) (d : DispatchResult),
        (tickEntry 100 ce hk resp d wOverrideState).1 ≠ .suppressedIdle)
      ∧ (∀ (hk : Bool) (resp : ℕ → ApiResponse AnnBody),
          tickEntry 100 true hk resp .success wOverrideState
            = (.sent (("**[Scheduled Announcement]** ") ++
                (if wOverrideState.is_automatic then
                    generate_announcement_content hk resp wOverrideState.ai_prompt
                 else wOverrideState.scheduled_message_content)),
               some { wOverrideState with last_bot_send_time := 100 }))) :=
  ⟨rfl, by decide, by norm_num,
   ignore_idle_always_dispatches wOverrideState 100 rfl (by decide)
     (by norm_num [wOverrideState, BotState.init])⟩

/-- C6: a dispatch failure that is neither destination-missing nor
permission-denied leaves the entry untouched — not removed and with
last_bot_send_time not advanced — so the entry is still due at every later
instant and is retried. -/
theorem other_dispatch_failure_leaves_entry_intact
    (s : BotState) (now : ℚ) (hk : Bool) (resp : ℕ → ApiResponse AnnBody)
    (hpos : 0 < s.interval_seconds)
    (hdue : (s.interval_seconds : ℚ) ≤ now - s.last_bot_send_time)
    (hpass : ¬ (s.ignore_stack_logic = false
        ∧ s.last_channel_activity_time ≤ s.last_bot_send_time)) :
    tickEntry now true hk resp .otherError s = (.failedOther, some s)
    ∧ ∀ now' : ℚ, now ≤ now' →
        (s.interval_seconds : ℚ) ≤ now' - s.last_bot_send_time := by
  have hi : s.interval_seconds ≠ 0 := by omega
  refine ⟨tickEntry_otherError now hk resp s hi (not_lt.mpr hdue) hpass, ?_⟩
  intro now' h
  linarith

/-- Active entry used in concrete runs: interval 10, last send at 0, chat
activity at 5 (so the anti-stacking check passes). -/
def wActiveState : BotState :=
  { BotState.init 1 0 with interval_seconds := 10, last_channel_activity_time := 5 }

/-- Concrete run of the transient-failure claim: a due, active entry whose
send raises a generic exception keeps exactly its old state and is still due
at every time from 100 on. -/
theorem other_dispatch_failure_leaves_entry_intact_witness :
    (0 : ℤ) < 10
    ∧ (((10 : ℤ) : ℚ) ≤ 100 - 0)
    ∧ ¬ (wActiveState.ignore_stack_logic = false
        ∧ wActiveState.last_channel_activity_time ≤ wActiveState.last_bot_send_time)
    ∧ (tickEntry 100 true true (fun _ => ApiResponse.connError) .otherError wActiveState
        = (.failedOther, some wActiveState)
      ∧ ∀ now' : ℚ, (100 : ℚ) ≤ now' →
          (((10 : ℤ) : ℚ) ≤ now' - wActiveState.last_bot_send_time)) :=
  ⟨by decide, by norm_num, by norm_num [wActiveState, BotState.init],
   other_dispatch_failure_leaves_entry_intact wActiveState 100 true
     (fun _ => ApiResponse.connError)
     (by decide) (by norm_num [wActiveState, BotState.init])
     (by norm_num [wActiveState, BotState.init])⟩

end StellatHelper

namespace StellatHelper

/-- C10: when a due automatic entry passes the anti-stacking check and the
channel resolves, the tick dispatches whatever string the generation gateway
produced — including each of its error texts (missing key, retries
exhausted, upstream status, malformed response) — and a successful send
advances last_bot_send_time exactly as for a normal announcement. -/
theorem automatic_error_text_dispatched
    (s : BotState) (now : ℚ) (hk : Bool) (resp : ℕ → ApiResponse AnnBody)
    (hauto : s.is_automatic = true)
    (hpos : 0 < s.interval_seconds)
    (hdue : (s.interval_seconds : ℚ) ≤ now - s.last_bot_send_time)
    (hpass : ¬ (s.ignore_stack_logic = false
        ∧ s.last_channel_activity_time ≤ s.last_bot_send_time)) :
    tickEntry now true hk resp .success s
      = (.sent (("**[Scheduled Announcement]** ") ++
          generate_announcement_content hk resp s.ai_prompt),
         some { s with last_bot_send_time := now })
    ∧ (hk = false →
        generate_announcement_content hk resp s.ai_prompt
          = "Error: Gemini API Key not configured.")
    ∧ (hk = true →
        (∀ a, a < 3 → resp a = ApiResponse.connError ∨ ∃ b, resp a = ApiResponse.http 429 b) →
        generate_announcement_content hk resp s.ai_prompt
          = "Error: Failed to connect to AI service after multiple retries.")
    ∧ (hk = true → ∀ code b, code ≠ 200 → code ≠ 429 → resp 0 = ApiResponse.http code b →
        generate_announcement_content hk resp s.ai_prompt
          = ("Error: AI service returned status ") ++ toString code)
    ∧ (hk = true → resp 0 = ApiResponse.http 200 AnnBody.badShape →
        generate_announcement_content hk resp s.ai_prompt
          = "Error: AI response was not in the expected format.") := by
  have hi : s.interval_seconds ≠ 0 := by omega
  refine ⟨?_, ?_, ?_, ?_, ?_⟩
  · have h := tickEntry_sent now hk resp s hi (not_lt.mpr hdue) hpass
    rwa [if_pos hauto] at h
  · intro hkf
    subst hkf
    simp [generate_announcement_content]
  · intro hkt hall
    subst hkt
    exact generate_of_fetch_error resp s.ai_prompt _
      (by rw [fetch_with_backoff_exhausted resp hall])
  · intro hkt code b h200 h429 hr
    subst hkt
    exact generate_of_fetch_error resp s.ai_prompt _
      (by rw [fetch_with_backoff_status resp code b h200 h429 hr])
  · intro hkt hr
    subst hkt
    unfold generate_announcement_content
    rw [fetch_with_backoff_ok resp AnnBody.badShape hr]
    simp

/-- Automatic entry used in concrete runs: generated mode, interval 10, last
send at 0, chat activity at 5. -/
def wAutoState : BotState :=
  { BotState.init 1 0 with interval_seconds := 10, last_channel_activity_time := 5, is_automatic := true, ai_prompt := "say hi" }

/-- Concrete run of the error-text dispatch claim, with an all-429 response
stream: the exhausted-retries error text is dispatched and the timestamp
advances. -/
theorem automatic_error_text_dispatched_witness :
    wAutoState.is_automatic = true
    ∧ (0 : ℤ) < 10
    ∧ (((10 : ℤ) : ℚ) ≤ 100 - 0)
    ∧ ¬ (wAutoState.ignore_stack_logic = false
        ∧ wAutoState.last_channel_activity_time ≤ wAutoState.last_bot_send_time)
    ∧ (tickEntry 100 true true (fun _ => ApiResponse.http 429 AnnBody.missingText) .success wAutoState
        = (.sent (("**[Scheduled Announcement]** ") ++
            generate_announcement_content true
              (fun _ => ApiResponse.http 429 AnnBody.missingText) wAutoState.ai_prompt),
           some { wAutoState with last_bot_send_time := 100 })
      ∧ (true = false →
          generate_announcement_content true
              (fun _ => ApiResponse.http 429 AnnBody.missingText) wAutoState.ai_prompt
            = "Error: Gemini API Key not configured.")
      ∧ (true = true →
          (∀ a, a < 3 →
            (fun _ : ℕ => ApiResponse.http 429 AnnBody.missingText) a = ApiResponse.connError
              ∨ ∃ b, (fun _ : ℕ => ApiResponse.http 429 AnnBody.missingText) a
                  = ApiResponse.http 429 b) →
          generate_announcement_content true
              (fun _ => ApiResponse.http 429 AnnBody.missingText) wAutoState.ai_prompt
            = "Error: Failed to connect to AI service after multiple retries.")
      ∧ (true = true → ∀ code b, code ≠ 200 → code ≠ 429 →
          (fun _ : ℕ => ApiResponse.http 429 AnnBody.missingText) 0 = ApiResponse.http code b →
          generate_announcement_content true
              (fun _ => ApiResponse.http 429 AnnBody.missingText) wAutoState.ai_prompt
            = ("Error: AI service returned status ") ++ toString code)
      ∧ (true = true →
          (fun _ : ℕ => ApiResponse.http 429 AnnBody.missingText) 0
            = ApiResponse.http 200 AnnBody.badShape →
          generate_announcement_content true
              (fun _ => ApiResponse.http 429 AnnBody.missingText) wAutoState.ai_prompt
            = "Error: AI response was not in the expected format.")) :=
  ⟨rfl, by decide, by norm_num, by norm_num [wAutoState, BotState.init],
   automatic_error_text_dispatched wAutoState 100 true
     (fun _ => ApiResponse.http 429 AnnBody.missingText)
     rfl (by decide) (by norm_num [wAutoState, BotState.init])
     (by norm_num [wAutoState, BotState.init])⟩

end StellatHelper

/- ---------------------------------------------------------------------
Registry lemmas and the command-surface claims.
--------------------------------------------------------------------- -/

namespace StellatHelper

/-- Storing under a key and reading that key back gives the stored state. -/
lemma regGet_regSet_self (reg : Registry) (c : ℤ) (s : BotState) :
    regGet (regSet reg c s) c = some s := by
  induction reg with
  | nil => simp [regSet, regGet]
  | cons p rest ih =>
      obtain ⟨c', s'⟩ := p
      by_cases h : c' = c
      · simp [regSet, regGet, h]
      · simp [regSet, regGet, h, ih]

/-- When the key is configured and the fetch reports an error string, the
structured parse surfaces exactly that error. -/
lemma parse_of_fetch_error (resp : ℕ → ApiResponse AutoBody) (e : String)
    (he : (fetch_with_backoff resp).error = some e) :
    parse_automatic_prompt true resp = Except.error e := by
  unfold parse_automatic_prompt
  cases hres : (fetch_with_backoff resp).result <;> simp [he, hres]

/-- C3: /automatic rejects the request — replying with a rejection and
leaving the registry unchanged — whenever the structured parse fails, and
likewise whenever the parse succeeds but yields an unusable announcement
prompt or an interval below 10 seconds. -/
theorem automatic_schedule_reject_leaves_registry
    (hk : Bool) (resp : ℕ → ApiResponse AutoBody) (c : ℤ) (now : ℚ) (reg : Registry) :
    ((∃ e, parse_automatic_prompt hk resp = Except.error e) →
       ∃ m, automatic_schedule hk resp c now reg = (reg, CmdReply.rejected m))
    ∧ (∀ e, hk = true → parse_automatic_prompt hk resp = Except.error e →
        automatic_schedule hk resp c now reg
          = (reg, CmdReply.rejected (("Error parsing prompt: ") ++ e)))
    ∧ (∀ p, parse_automatic_prompt hk resp = Except.ok p →
        (pyFalsy p.announcement_prompt = true ∨ p.interval_seconds.getD 0 < 10) →
        automatic_schedule hk resp c now reg
          = (reg, CmdReply.rejected
              ("Could not determine a clear message or the interval was too small (minimum 10 seconds)."))) := by
  refine ⟨?_, ?_, ?_⟩
  · rintro ⟨e, he⟩
    cases hk with
    | false => exact ⟨("GEMINI_API_KEY is missing."), by simp [automatic_schedule]⟩
    | true => exact ⟨("Error parsing prompt: ") ++ e, by simp [automatic_schedule, he]⟩
  · intro e hkt he
    subst hkt
    simp [automatic_schedule, he]
  · intro p hp hbad
    cases hk with
    | false => simp [parse_automatic_prompt] at hp
    | true =>
        rcases hbad with h | h <;> simp [automatic_schedule, hp, h]

/-- Concrete run of the /automatic rejection claim: a 404 from the parse path
(parse fails) and a parse result with an empty prompt both produce a
rejection reply and leave the empty registry empty. -/
theorem automatic_schedule_reject_leaves_registry_witness :
    (∃ e, parse_automatic_prompt true (fun _ => ApiResponse.http 404 AutoBody.badJson)
        = Except.error e)
    ∧ (∃ m, automatic_schedule true (fun _ => ApiResponse.http 404 AutoBody.badJson) 1 0 []
        = (([] : Registry), CmdReply.rejected m))
    ∧ automatic_schedule true (fun _ => ApiResponse.http 404 AutoBody.badJson) 1 0 []
        = (([] : Registry), CmdReply.rejected (("Error parsing prompt: ")
            ++ (("Error: AI service returned status ") ++ toString 404)))
    ∧ automatic_schedule true
          (fun _ => ApiResponse.http 200 (AutoBody.goodJson ⟨none, none⟩)) 1 0 []
        = (([] : Registry), CmdReply.rejected
            ("Could not determine a clear message or the interval was too small (minimum 10 seconds).")) := by
  have hparse : parse_automatic_prompt true (fun _ => ApiResponse.http 404 AutoBody.badJson)
      = Except.error (("Error: AI service returned status ") ++ toString 404) :=
    parse_of_fetch_error (fun _ => ApiResponse.http 404 AutoBody.badJson) _
      (by rw [fetch_with_backoff_status (fun _ => ApiResponse.http 404 AutoBody.badJson)
        404 AutoBody.badJson (by decide) (by decide) rfl])
  have hok : parse_automatic_prompt true
        (fun _ => ApiResponse.http 200 (AutoBody.goodJson ⟨none, none⟩))
      = Except.ok ⟨none, some 10⟩ := by
    unfold parse_automatic_prompt
    rw [fetch_with_backoff_ok (fun _ => ApiResponse.http 200 (AutoBody.goodJson ⟨none, none⟩))
      (AutoBody.goodJson ⟨none, none⟩) rfl]
    simp
  refine ⟨⟨_, hparse⟩, ?_, ?_, ?_⟩
  · exact (automatic_schedule_reject_leaves_registry true
      (fun _ => ApiResponse.http 404 AutoBody.badJson) 1 0 []).1 ⟨_, hparse⟩
  · exact (automatic_schedule_reject_leaves_registry true
      (fun _ => ApiResponse.http 404 AutoBody.badJson) 1 0 []).2.1 _ rfl hparse
  · exact (automatic_schedule_reject_leaves_registry true
      (fun _ => ApiResponse.http 200 (AutoBody.goodJson ⟨none, none⟩)) 1 0 []).2.2
      ⟨none, some 10⟩ hok (Or.inl rfl)

/-- C7: /test never writes the registry: the entry (in particular its
last_bot_send_time) is exactly what it was, so the regular due-check is
computed from the original timestamp; and when an entry exists and the send
succeeds, the test announcement for its configured content is dispatched. -/
theorem test_fire_preserves_schedule
    (hk : Bool) (resp : ℕ → ApiResponse AnnBody) (d : DispatchResult)
    (c : ℤ) (reg : Registry) :
    (test_schedule hk resp d c reg).1 = reg
    ∧ (∀ s, regGet reg c = some s →
        regGet (test_schedule hk resp d c reg).1 c = some s
        ∧ test_schedule hk resp .success c reg
            = (reg, .sent (("**[Test Announcement]** ") ++
                (if s.is_automatic then generate_announcement_content hk resp s.ai_prompt
                 else s.scheduled_message_content)))) := by
  have hfst : (test_schedule hk resp d c reg).1 = reg := by
    cases h : regGet reg c with
    | none => simp [test_schedule, h]
    | some s => cases d <;> simp [test_schedule, h]
  refine ⟨hfst, fun s hs => ⟨by rw [hfst, hs], ?_⟩⟩
  simp [test_schedule, hs]

/-- Concrete run of the /test claim: a one-entry registry is untouched by the
test dispatch and the entry still reads back identically. -/
theorem test_fire_preserves_schedule_witness :
    (test_schedule true (fun _ => ApiResponse.connError) .success 1 [(1, wActiveState)]).1
      = [(1, wActiveState)]
    ∧ (regGet [(1, wActiveState)] 1 = some wActiveState
      ∧ regGet (test_schedule true (fun _ => ApiResponse.connError) .success 1
            [(1, wActiveState)]).1 1 = some wActiveState
      ∧ test_schedule true (fun _ => ApiResponse.connError) .success 1 [(1, wActiveState)]
          = ([(1, wActiveState)], .sent (("**[Test Announcement]** ") ++
              (if wActiveState.is_automatic then
                  generate_announcement_content true (fun _ => ApiResponse.connError)
                    wActiveState.ai_prompt
               else wActiveState.scheduled_message_content)))) :=
  ⟨(test_fire_preserves_schedule true (fun _ => ApiResponse.connError) .success 1
      [(1, wActiveState)]).1,
   by simp [regGet],
   ((test_fire_preserves_schedule true (fun _ => ApiResponse.connError) .success 1
      [(1, wActiveState)]).2 wActiveState (by simp [regGet])).1,
   ((test_fire_preserves_schedule true (fun _ => ApiResponse.connError) .success 1
      [(1, wActiveState)]).2 wActiveState (by simp [regGet])).2⟩

/-- C9: scheduling a fixed "hi" at one hour (3600 seconds) and then asking
for the status reports the interval as "1 hours" and the Manual mode. -/
theorem manual_then_status_roundtrip (reg : Registry) (c : ℤ) (now now' : ℚ) :
    statusIntervalDisplay (get_status now' (manual_schedule c ("hi") 1 now reg).1 c)
        = some ("1 hours")
    ∧ statusMode (get_status now' (manual_schedule c ("hi") 1 now reg).1 c)
        = some ("Manual (Fixed)")
    ∧ (statusMode (get_status now' (manual_schedule c ("hi") 1 now reg).1 c)).map
        (fun m => m.take 6) = some ("Manual") := by
  have h1 : ¬ ((1 : ℚ) ≤ 0) := by norm_num
  have h2 : pyInt ((1 : ℚ) * 3600) = 3600 := by norm_num [pyInt]
  have h3 : ¬ ((3600 : ℤ) < 10) := by decide
  have hdisp : get_display_interval 3600 = "1 hours" := by decide
  simp only [manual_schedule, if_neg h1, h2, if_neg h3,
    get_status, regGet_regSet_self, statusIntervalDisplay, statusMode]
  refine ⟨by simp [hdisp], by simp, by simp; decide⟩

end StellatHelper

/- ---------------------------------------------------------------------
Registry-level facts about the tick, and the deregistration claim.
--------------------------------------------------------------------- -/

namespace StellatHelper

/-- A key that is not in the registry reads back as absent. -/
lemma regGet_none_of_not_mem_keys (c : ℤ) :
    ∀ reg : Registry, c ∉ reg.map Prod.fst → regGet reg c = none := by
  intro reg
  induction reg with
  | nil => intro _; rfl
  | cons p rest ih =>
      obtain ⟨c', s'⟩ := p
      intro h
      simp only [List.map_cons, List.mem_cons, not_or] at h
      obtain ⟨h1, h2⟩ := h
      have h1' : ¬ c' = c := fun hh => h1 hh.symm
      simp [regGet, h1', ih h2]

/-- The tick introduces no new keys: a key of the registry after a tick was a
key before it. -/
lemma tick_keys_mem (now : ℚ) (hk : Bool) (env : ℤ → ChannelEnv) (c : ℤ) :
    ∀ reg : Registry, c ∈ ((tick now hk env reg).1).map Prod.fst →
      c ∈ reg.map Prod.fst := by
  intro reg
  induction reg with
  | nil => intro h; simp [tick] at h
  | cons p rest ih =>
      obtain ⟨c', s'⟩ := p
      intro h
      cases htk : (tickEntry now (env c').channelExists hk (env c').resp
          (env c').dispatch s').2 with
      | none =>
          simp only [tick, htk, List.map_cons, List.mem_cons]
          exact Or.inr (ih (by simpa [tick, htk] using h))
      | some t =>
          simp only [tick, htk, List.map_cons, List.mem_cons] at h ⊢
          rcases h with h | h
          · exact Or.inl h
          · exact Or.inr (ih h)

/-- The tick records one action per registered channel, in registry order:
every channel keeps being processed. -/
lemma tick_actions_keys (now : ℚ) (hk : Bool) (env : ℤ → ChannelEnv) :
    ∀ reg : Registry, (tick now hk env reg).2.map Prod.fst = reg.map Prod.fst := by
  intro reg
  induction reg with
  | nil => rfl
  | cons p rest ih =>
      obtain ⟨c', s'⟩ := p
      simp [tick, ih]

/-- A due entry that passes anti-stacking but whose channel does not resolve
is no longer present after the tick. -/
lemma tick_regGet_none_of_removed (now : ℚ) (hk : Bool) (env : ℤ → ChannelEnv)
    (c : ℤ) (s : BotState)
    (hpos : 0 < s.interval_seconds)
    (hdue : (s.interval_seconds : ℚ) ≤ now - s.last_bot_send_time)
    (hpass : ¬ (s.ignore_stack_logic = false
        ∧ s.last_channel_activity_time ≤ s.last_bot_send_time))
    (hce : (env c).channelExists = false) :
    ∀ reg : Registry, (reg.map Prod.fst).Nodup → regGet reg c = some s →
      regGet (tick now hk env reg).1 c = none := by
  have hi : s.interval_seconds ≠ 0 := by omega
  intro reg
  induction reg with
  | nil => intro _ hget; simp [regGet] at hget
  | cons p rest ih =>
      obtain ⟨c', s'⟩ := p
      intro hnodup hget
      simp only [List.map_cons, List.nodup_cons] at hnodup
      obtain ⟨hcn, hnd⟩ := hnodup
      by_cases h : c' = c
      · subst h
        have hs : s' = s := by simpa [regGet] using hget
        subst hs
        have hrm : tickEntry now (env c').channelExists hk (env c').resp
            (env c').dispatch s' = (.removedNoChannel, none) := by
          rw [hce]
          exact tickEntry_noChannel now hk (env c').resp (env c').dispatch s'
            hi (not_lt.mpr hdue) hpass
        simp only [tick, hrm]
        exact regGet_none_of_not_mem_keys c' (tick now hk env rest).1
          (fun hmem => hcn (tick_keys_mem now hk env c' rest hmem))
      · have hget' : regGet rest c = some s := by simpa [regGet, h] using hget
        cases htk : (tickEntry now (env c').channelExists hk (env c').resp
            (env c').dispatch s').2 with
        | none => simpa [tick, htk] using ih hnd hget'
        | some t => simp [tick, htk, regGet, h, ih hnd hget']

/-- C5: when a due entry passes the anti-stacking check but its destination
channel cannot be resolved, the tick removes that channel from the registry —
while still processing every other channel — and a subsequent /status for
that channel reports the Idle (no-schedule) state. -/
theorem missing_channel_deregisters_and_status_idle
    (reg : Registry) (c : ℤ) (s : BotState) (now now' : ℚ) (hk : Bool)
    (env : ℤ → ChannelEnv)
    (hnodup : (reg.map Prod.fst).Nodup)
    (hget : regGet reg c = some s)
    (hpos : 0 < s.interval_seconds)
    (hdue : (s.interval_seconds : ℚ) ≤ now - s.last_bot_send_time)
    (hpass : ¬ (s.ignore_stack_logic = false
        ∧ s.last_channel_activity_time ≤ s.last_bot_send_time))
    (hce : (env c).channelExists = false) :
    regGet (tick now hk env reg).1 c = none
    ∧ get_status now' (tick now hk env reg).1 c = .idle
    ∧ (tick now hk env reg).2.map Prod.fst = reg.map Prod.fst := by
  have hnone := tick_regGet_none_of_removed now hk env c s hpos hdue hpass hce
    reg hnodup hget
  exact ⟨hnone, by simp [get_status, hnone], tick_actions_keys now hk env reg⟩

/-- Environment used in concrete runs of the deregistration claim: no channel
resolves. -/
def wNoChannelEnv : ℤ → ChannelEnv :=
  fun _ => { channelExists := false, dispatch := .success, resp := fun _ => ApiResponse.connError }

/-- Concrete run of the deregistration claim: a one-entry registry whose
channel does not resolve is emptied by the tick, the follow-up status is
Idle, and the tick still recorded an action for the channel. -/
theorem missing_channel_deregisters_and_status_idle_witness :
    ([(1, wActiveState)].map Prod.fst).Nodup
    ∧ regGet [(1, wActiveState)] 1 = some wActiveState
    ∧ (0 : ℤ) < 10
    ∧ (((10 : ℤ) : ℚ) ≤ 100 - 0)
    ∧ (wNoChannelEnv 1).channelExists = false
    ∧ (regGet (tick 100 true wNoChannelEnv [(1, wActiveState)]).1 1 = none
      ∧ get_status 150 (tick 100 true wNoChannelEnv [(1, wActiveState)]).1 1 = .idle
      ∧ (tick 100 true wNoChannelEnv [(1, wActiveState)]).2.map Prod.fst
          = [(1, wActiveState)].map Prod.fst) :=
  ⟨by simp, by simp [regGet], by decide, by norm_num, rfl,
   missing_channel_deregisters_and_status_idle [(1, wActiveState)] 1 wActiveState
     100 150 true wNoChannelEnv (by simp) (by simp [regGet]) (by decide)
     (by norm_num [wActiveState, BotState.init]) (by norm_num [wActiveState, BotState.init]) rfl⟩

end StellatHelper

/- ---------------------------------------------------------------------
The interval invariant (inert, or at least 10 seconds).
--------------------------------------------------------------------- -/

namespace StellatHelper

/-- Storing a state that satisfies the interval invariant preserves the
registry invariant. -/
lemma regOK_regSet (c : ℤ) (s : BotState) (hs : intervalOK s) :
    ∀ reg : Registry, regOK reg → regOK (regSet reg c s) := by
  intro reg
  induction reg with
  | nil =>
      intro _ q hq
      simp [regSet] at hq
      subst hq
      exact hs
  | cons p rest ih =>
      obtain ⟨c', s'⟩ := p
      intro h q hq
      by_cases hc : c' = c
      · simp [regSet, hc] at hq
        rcases hq with rfl | hq
        · exact hs
        · exact h q (by simp [hq])
      · simp [regSet, hc] at hq
        rcases hq with rfl | hq
        · exact h (c', s') (by simp)
        · exact ih (fun r hr => h r (by simp [hr])) q hq

/-- A tick never changes the interval of an entry it keeps. -/
lemma tickEntry_snd_cases (now : ℚ) (ce hk : Bool) (resp : ℕ → ApiResponse AnnBody)
    (d : DispatchResult) (s : BotState) :
    (tickEntry now ce hk resp d s).2 = none
    ∨ ∃ t, (tickEntry now ce hk resp d s).2 = some t
        ∧ t.interval_seconds = s.interval_seconds := by
  unfold tickEntry
  cases d <;> split_ifs <;>
    first
      | exact Or.inl rfl
      | exact Or.inr ⟨_, rfl, rfl⟩

/-- The scheduler tick preserves the registry invariant. -/
lemma regOK_tick (now : ℚ) (hk : Bool) (env : ℤ → ChannelEnv) :
    ∀ reg : Registry, regOK reg → regOK (tick now hk env reg).1 := by
  intro reg
  induction reg with
  | nil => intro _; simp [tick, regOK]
  | cons p rest ih =>
      obtain ⟨c', s'⟩ := p
      intro h
      have hs' : intervalOK s' := h (c', s') (by simp)
      have hrest : regOK rest := fun q hq => h q (by simp [hq])
      rcases tickEntry_snd_cases now (env c').channelExists hk (env c').resp
          (env c').dispatch s' with hn | ⟨t, ht, hti⟩
      · intro q hq
        exact ih hrest q (by simpa [tick, hn] using hq)
      · intro q hq
        simp only [tick, ht, List.mem_cons] at hq
        rcases hq with rfl | hq
        · unfold intervalOK at hs' ⊢
          rw [hti]
          exact hs'
        · exact ih hrest q hq

/-- The /manual command preserves the registry invariant: it only stores an entry after
checking the computed interval is at least 10 seconds. -/
lemma regOK_manual_schedule (c : ℤ) (msg : String) (hours now : ℚ)
    (reg : Registry) (h : regOK reg) : regOK (manual_schedule c msg hours now reg).1 := by
  simp only [manual_schedule]
  split_ifs with h1 h2
  · exact h
  · exact h
  · refine regOK_regSet c _ (Or.inr ?_) reg h
    show 10 ≤ pyInt (hours * 3600)
    omega

/-- The /automatic command preserves the registry invariant: it rejects unless the parsed
interval is at least 10 seconds. -/
lemma regOK_automatic_schedule (hk : Bool) (resp : ℕ → ApiResponse AutoBody)
    (c : ℤ) (now : ℚ) (reg : Registry) (h : regOK reg) :
    regOK (automatic_schedule hk resp c now reg).1 := by
  simp only [automatic_schedule]
  split_ifs with h1
  · exact h
  · cases hp : parse_automatic_prompt hk resp with
    | error e => simpa [hp] using h
    | ok p =>
        simp only [hp]
        split_ifs with h2
        · exact h
        · refine regOK_regSet c _ (Or.inr ?_) reg h
          show 10 ≤ p.interval_seconds.getD 0
          simp only [Bool.or_eq_true, decide_eq_true_eq, not_or] at h2
          omega

/-- The /ignore_stack_logic command preserves the registry invariant: it stores a fixed
10-second interval. -/
lemma regOK_ignore_stack_logic (pw : String) (c : ℤ) (now : ℚ)
    (reg : Registry) (h : regOK reg) : regOK (ignore_stack_logic pw c now reg).1 := by
  simp only [ignore_stack_logic]
  split_ifs with h1
  · exact h
  · refine regOK_regSet c _ (Or.inr ?_) reg h
    show (10 : ℤ) ≤ 10
    omega

/-- C8: starting from the empty registry, every write path of the command
surface (/manual, /automatic, the override) and the scheduler tick preserves
the invariant that each stored entry has interval_seconds equal to 0 (inert)
or at least 10 — no operation ever stores an active entry with an interval
strictly between 0 and 10. -/
theorem interval_invariant_preserved
    (reg : Registry) (hreg : regOK reg)
    (c : ℤ) (msg pw : String) (hours now : ℚ) (hk : Bool)
    (respA : ℕ → ApiResponse AutoBody) (env : ℤ → ChannelEnv) :
    regOK ([] : Registry)
    ∧ regOK (manual_schedule c msg hours now reg).1
    ∧ regOK (automatic_schedule hk respA c now reg).1
    ∧ regOK (ignore_stack_logic pw c now reg).1
    ∧ regOK (tick now hk env reg).1 :=
  ⟨by simp [regOK],
   regOK_manual_schedule c msg hours now reg hreg,
   regOK_automatic_schedule hk respA c now reg hreg,
   regOK_ignore_stack_logic pw c now reg hreg,
   regOK_tick now hk env reg hreg⟩

/-- Concrete run of the invariant claim on a one-entry registry. -/
theorem interval_invariant_preserved_witness :
    regOK [(1, wActiveState)]
    ∧ (regOK ([] : Registry)
      ∧ regOK (manual_schedule 1 ("hello") 0 50 [(1, wActiveState)]).1
      ∧ regOK (automatic_schedule false (fun _ => ApiResponse.connError) 1 50
          [(1, wActiveState)]).1
      ∧ regOK (ignore_stack_logic ("pw") 1 50 [(1, wActiveState)]).1
      ∧ regOK (tick 50 true wNoChannelEnv [(1, wActiveState)]).1) :=
  ⟨by simp [regOK, wActiveState, BotState.init, intervalOK],
   interval_invariant_preserved [(1, wActiveState)]
     (by simp [regOK, wActiveState, BotState.init, intervalOK])
     1 ("hello") ("pw") 0 50 true (fun _ => ApiResponse.connError) wNoChannelEnv⟩

end StellatHelper
